import Mathlib

/-!
Shallow embedding of the chatbot repository (src/app.py and
src/sentiment_analysis.py) and proofs of the specification claims.

Modelling conventions:
- Python floats carrying classifier scores are modelled as rationals (ℚ).
- External collaborators (the chat-completion endpoint and the sentiment
  pipeline) are passed as function parameters; an exception raised by a
  collaborator is modelled as `Except.error` / `Option.none`, matching the
  `try/except` structure of the source.
- Streamlit session state (`st.session_state.messages`,
  `st.session_state.conversation_count`) is modelled as an explicit
  `SessionState` record threaded through the handlers.
- Python strings are Lean `String`s (sequences of unicode code points, the
  same notion of length and slicing that Python uses).
-/

set_option maxRecDepth 10000

namespace Midterm

/-- `MAX_CONVERSATION_TURNS = 10` from app.py. -/
def MAX_CONVERSATION_TURNS : ℕ := 10

/-- The dict `{'label': ..., 'score': ...}` returned by `analyze_sentiment`
(and, inside it, by the classifier pipeline). -/
structure ClassifierOutput where
  label : String
  score : ℚ
deriving DecidableEq

/-- The `positive` label group from `_convert_to_simple_sentiment`. -/
def positive : List String :=
  ["기쁨(행복한)", "고마운", "설레는(기대하는)", "사랑하는", "즐거운(신나는)"]

/-- The `neutral` label group from `_convert_to_simple_sentiment`. -/
def neutral : List String :=
  ["일상적인", "생각이 많은"]

/-- The `negative` label group from `_convert_to_simple_sentiment`. -/
def negative : List String :=
  ["슬픔(우울한)", "힘듦(지침)", "짜증남", "걱정스러운(불안한)"]

/-- The 11 fine-grained emotion categories (the three groups together). -/
def elevenLabels : List String := positive ++ neutral ++ negative

/-- The `if/elif/elif/else` chain of `_convert_to_simple_sentiment` that picks
`simple_label` from `label`. -/
def simpleLabelOf (label : String) : String :=
  if label ∈ positive then "긍정"
  else if label ∈ neutral then "중립"
  else if label ∈ negative then "부정"
  else "알 수 없음"

/-- The dict `{'original_label', 'simple_label', 'score'}` built by
`_convert_to_simple_sentiment`. -/
structure ConvertedSentiment where
  original_label : String
  simple_label : String
  score : ℚ
deriving DecidableEq

/-- `SentimentAnalysis._convert_to_simple_sentiment`: `None` in, `None` out
(the `if not sentiment_result` guard); otherwise groups the 11 fine-grained
labels into 긍정/중립/부정/알 수 없음. -/
def convert_to_simple_sentiment (sentiment_result : Option ClassifierOutput) :
    Option ConvertedSentiment :=
  match sentiment_result with
  | none => none
  | some r =>
    some { original_label := r.label, simple_label := simpleLabelOf r.label, score := r.score }

/-- Round a rational to the nearest integer, ties to even — the rounding used
by Python float formatting (`format(x, '.1f')`). -/
def roundHalfEven (x : ℚ) : ℤ :=
  let f := Rat.floor x
  let r := x.num - f * (x.den : ℤ)
  if 2 * r < (x.den : ℤ) then f
  else if (x.den : ℤ) < 2 * r then f + 1
  else if f % 2 = 0 then f else f + 1

/-- The f-string fragment `f"{score*100:.1f}"`: the score as a percentage with
one decimal place (for the nonnegative scores the classifier produces). The
tenths of a percent are obtained by rounding `score * 1000` half-to-even
(written `Rat.divInt (score.num * 1000) score.den`, which is the rational
`score * 1000`). -/
def formatScorePct (score : ℚ) : String :=
  let n : ℕ := (roundHalfEven (Rat.divInt (score.num * 1000) score.den)).toNat
  toString (n / 10) ++ "." ++ toString (n % 10)

/-- `SentimentAnalysis.get_sentiment_display`: picks the confidence level
높음/보통/낮음 from the two thresholds and formats the annotation string;
in the low-confidence branch the string starts with 불확실 instead of the
simplified label. -/
def get_sentiment_display (sentiment_result : Option ClassifierOutput)
    (strict_threshold : ℚ) (neutral_threshold : ℚ) : String :=
  match convert_to_simple_sentiment sentiment_result with
  | none => ""
  | some converted =>
    let simple_label := converted.simple_label
    let score := converted.score
    let original_label := converted.original_label
    if strict_threshold ≤ score then
      simple_label ++ " [ 원본: " ++ original_label ++ ", 신뢰도: 높음, " ++
        formatScorePct score ++ "% ]"
    else if neutral_threshold ≤ score then
      simple_label ++ " [ 원본: " ++ original_label ++ ", 신뢰도: 보통, " ++
        formatScorePct score ++ "% ]"
    else
      "불확실 [ 원본: " ++ original_label ++ ", 신뢰도: 낮음, " ++
        formatScorePct score ++ "% ]"

/-- The default strict threshold of `get_sentiment_display`: `0.7`. -/
def strictDefault : ℚ := Rat.divInt 7 10

/-- The default neutral threshold of `get_sentiment_display`: `0.55`. -/
def neutralDefault : ℚ := Rat.divInt 11 20

/-- The default thresholds of `get_sentiment_display`
(`strict_threshold=0.7`, `neutral_threshold=0.55`). -/
def get_sentiment_display_default (sentiment_result : Option ClassifierOutput) : String :=
  get_sentiment_display sentiment_result strictDefault neutralDefault

/-- The truncation `if len(text) > 400: text = text[:400]` performed by
`analyze_sentiment` before the classifier call. -/
def truncateForModel (text : String) : String :=
  if text.length > 400 then String.mk (text.data.take 400) else text

/-- `SentimentAnalysis.analyze_sentiment`. The pipeline collaborator is
`Option`-valued: `pipeline = none` models `self.sentiment_pipeline is None`
(model failed to load); the pipeline function returning `none` models the
classifier call raising (caught by the `except`, which returns `None`). -/
def analyze_sentiment (pipeline : Option (String → Option ClassifierOutput))
    (text : String) : Option ClassifierOutput :=
  match pipeline with
  | none => none
  | some p => p (truncateForModel text)

/-- The dict returned by `process_message_sentiment`. -/
structure SentimentInfo where
  sentiment : Option ClassifierOutput
  sentiment_display : Option String
  has_sentiment : Bool
deriving DecidableEq

/-- `SentimentAnalysis.process_message_sentiment`. -/
def process_message_sentiment (pipeline : Option (String → Option ClassifierOutput))
    (message_content : String) : SentimentInfo :=
  match analyze_sentiment pipeline message_content with
  | some r =>
    { sentiment := some r
      sentiment_display := some (get_sentiment_display (some r) strictDefault neutralDefault)
      has_sentiment := true }
  | none =>
    { sentiment := none, sentiment_display := none, has_sentiment := false }

/-- `Chatbot._initialize_system`, configuration part: reads `SOLAR_API_KEY`
from the environment; `if not api_key` (absent or empty) raises `ValueError`
and the exception propagates (`raise` re-raises after `st.error`), so the
chatbot is never constructed. On success the key is handed to the model
client. -/
def initialize_system (solar_api_key : Option String) : Except String String :=
  match solar_api_key with
  | none => Except.error "SOLAR_API_KEY가 설정되지 않았습니다."
  | some k =>
    if k = "" then Except.error "SOLAR_API_KEY가 설정되지 않았습니다."
    else Except.ok k

/-! ### app.py -/

/-- LangChain message values built by the prompt template and the history
converter (`SystemMessage` / `HumanMessage` / `AIMessage`). -/
inductive LCMessage where
  | system : String → LCMessage
  | human : String → LCMessage
  | ai : String → LCMessage
deriving DecidableEq

/-- The `system_template` string constant of app.py (it contains no `\x7bname\x7d`
placeholder, so `format(name=...)` leaves it unchanged). -/
def system_template : String :=
  "당신은 친근하고 도움이 되는 AI 어시스턴트 **chatbot**입니다.\n사용자와의 이전 대화 내용을 참고하여 자연스럽고 일관성 있는 대화를 이어가세요.\n항상 정중하고 친절하게 답변해주세요."

/-- One entry of `st.session_state.messages`: a dict with `role` and `content`
keys, and for annotated assistant messages the optional `sentiment` and
`sentiment_display` keys. -/
structure Message where
  role : String
  content : String
  sentiment : Option ClassifierOutput
  sentiment_display : Option String
deriving DecidableEq

/-- The loop body of `Chatbot._convert_to_langchain_messages`: `role == "user"`
becomes a `HumanMessage`, `role == "assistant"` an `AIMessage`, anything else
is skipped. -/
def roleTagged (m : Message) : Option LCMessage :=
  if m.role = "user" then some (LCMessage.human m.content)
  else if m.role = "assistant" then some (LCMessage.ai m.content)
  else none

/-- `Chatbot._convert_to_langchain_messages`: iterates over
`conversation[:-1]` (all messages except the newest, last one) appending the
role-tagged conversion of each. Pure: the input list is not modified. -/
def convert_to_langchain_messages (conversation : List Message) : List LCMessage :=
  conversation.dropLast.filterMap roleTagged

/-- `prompt_template.format_messages(chat_history=..., input=...)`: the fixed
system instruction, then the prior history, then the current human input. -/
def format_messages (chat_history : List LCMessage) (input : String) : List LCMessage :=
  LCMessage.system system_template :: (chat_history ++ [LCMessage.human input])

/-- The dict returned by `Chatbot.generate_response`. On the error path the
source dict has no `sentiment` keys beyond `has_sentiment: False`; we model
that as the all-`none` `SentimentInfo`. -/
structure GenerateResult where
  status : String
  response : String
  sentiment_info : SentimentInfo
  error : Option String
deriving DecidableEq

/-- `Chatbot.generate_response`. The chat model collaborator `invoke` returns
`Except.error e` when `self.chat_model.invoke` (or anything else inside the
`try`) raises with message `e`; the `except` branch builds the error dict. -/
def generate_response (invoke : List LCMessage → Except String String)
    (pipeline : Option (String → Option ClassifierOutput))
    (user_input : String) (conversation : List Message) : GenerateResult :=
  let chat_history := convert_to_langchain_messages conversation
  let messages := format_messages chat_history user_input
  match invoke messages with
  | Except.ok ai_response =>
    { status := "success"
      response := ai_response
      sentiment_info := process_message_sentiment pipeline ai_response
      error := none }
  | Except.error e =>
    { status := "error"
      error := some e
      response := "응답 생성 중 오류가 발생했습니다."
      sentiment_info := { sentiment := none, sentiment_display := none, has_sentiment := false } }

/-- The session state used by app.py: `st.session_state.messages` and
`st.session_state.conversation_count`. -/
structure SessionState where
  messages : List Message
  conversation_count : ℕ
deriving DecidableEq

/-- `initialize_session_state` on a fresh session: empty messages, zero
conversation count. -/
def initial_session : SessionState :=
  { messages := [], conversation_count := 0 }

/-- `reset_chat`: sets `st.session_state.messages = []` and
`st.session_state.conversation_count = 0` (then reruns the page). Both fields
are replaced in the one state transition. -/
def reset_chat (_s : SessionState) : SessionState :=
  { messages := [], conversation_count := 0 }

/-- `manage_conversation_overflow`, as a function from the message list to the
(new message list, `removed_count`) pair; `removed_count = 0` when no trim
happens. `keep_count = int(max_messages * 0.7)`: for `max_messages = 20` the
float product `20 * 0.7` is exactly `14.0` (the real product rounds to `14.0`
under ties-to-even), so `int(...)` is the floor `20 * 7 / 10 = 14` modelled
here. `messages[-keep_count:]` keeps the last `keep_count` entries. -/
def manage_conversation_overflow (messages : List Message) : List Message × ℕ :=
  let max_messages := MAX_CONVERSATION_TURNS * 2
  if max_messages ≤ messages.length then
    let keep_count := max_messages * 7 / 10
    let removed_count := messages.length - keep_count
    (messages.drop (messages.length - keep_count), removed_count)
  else
    (messages, 0)

/-- The user message dict appended by `main` after the overflow check. -/
def user_message (input : String) : Message :=
  { role := "user", content := input, sentiment := none, sentiment_display := none }

/-- The assistant message dict appended by `main` on the success path:
sentiment keys are added only when `sentiment_info['has_sentiment']`. -/
def assistant_success_message (result : GenerateResult) : Message :=
  if result.sentiment_info.has_sentiment then
    { role := "assistant"
      content := result.response
      sentiment := result.sentiment_info.sentiment
      sentiment_display := result.sentiment_info.sentiment_display }
  else
    { role := "assistant", content := result.response
      sentiment := none, sentiment_display := none }

/-- The assistant message dict appended by `main` on the error path:
`f"--- 오류: \x7bresult.get('error', '알 수 없는 오류')\x7d"`. -/
def assistant_error_message (result : GenerateResult) : Message :=
  { role := "assistant"
    content := "--- 오류: " ++ result.error.getD "알 수 없는 오류"
    sentiment := none, sentiment_display := none }

/-- The body of `main`'s `if user_input := st.chat_input(...)` block: run the
overflow manager, append the user message, call `generate_response` on the
updated list, then append either the annotated assistant message (bumping
`conversation_count`) or the error-notice assistant message. -/
def handle_user_input (invoke : List LCMessage → Except String String)
    (pipeline : Option (String → Option ClassifierOutput))
    (user_input : String) (s : SessionState) : SessionState :=
  let trimmed := (manage_conversation_overflow s.messages).1
  let with_user := trimmed ++ [user_message user_input]
  let result := generate_response invoke pipeline user_input with_user
  if result.status = "success" then
    { messages := with_user ++ [assistant_success_message result]
      conversation_count := s.conversation_count + 1 }
  else
    { messages := with_user ++ [assistant_error_message result]
      conversation_count := s.conversation_count }

/-- The prompt `generate_response` hands to the chat model during
`handle_user_input` on state `s` with input `user_input` (the conversation at
that point is the trimmed list plus the fresh user message). -/
def turn_prompt (s : SessionState) (user_input : String) : List LCMessage :=
  format_messages
    (convert_to_langchain_messages
      ((manage_conversation_overflow s.messages).1 ++ [user_message user_input]))
    user_input

/-- One interaction step of the UI session: either a full user turn (with the
chat model and sentiment pipeline behaving as the given collaborators) or a
press of the reset button. -/
inductive SessionStep where
  | userTurn (invoke : List LCMessage → Except String String)
      (pipeline : Option (String → Option ClassifierOutput))
      (input : String)
  | reset

/-- Apply one session step. -/
def apply_step (s : SessionState) : SessionStep → SessionState
  | SessionStep.userTurn invoke pipeline input => handle_user_input invoke pipeline input s
  | SessionStep.reset => reset_chat s

/-- Run a session from the fresh initial state through a list of steps. -/
def run_session (steps : List SessionStep) : SessionState :=
  steps.foldl apply_step initial_session

/-! ### Theorems for the claims -/

/-- C9: if `SOLAR_API_KEY` is absent from the environment at startup,
initialization raises the fatal `ValueError` (so the chatbot is never
constructed and no further operation proceeds). -/
theorem C9_missing_api_key_fatal :
    initialize_system none = Except.error "SOLAR_API_KEY가 설정되지 않았습니다." ∧
    (initialize_system none).isOk = false :=
  ⟨rfl, rfl⟩

/-- C8: `reset_chat` on a session with a non-empty conversation yields an
empty message sequence and a zero turn counter; both are cleared in the one
state transition (the resulting state is exactly the fresh initial state, so
no observer of the new state sees one field cleared without the other). -/
theorem C8_reset_clears (s : SessionState) (_h : s.messages ≠ []) :
    (reset_chat s).messages = [] ∧ (reset_chat s).conversation_count = 0 ∧
    reset_chat s = initial_session :=
  ⟨rfl, rfl, rfl⟩

/-- Witness for C8 at a concrete non-empty session. -/
theorem C8_reset_clears_witness :
    ({ messages := [user_message "안녕"], conversation_count := 1 } : SessionState).messages ≠ [] ∧
    reset_chat { messages := [user_message "안녕"], conversation_count := 1 } = initial_session :=
  ⟨by decide,
   (C8_reset_clears { messages := [user_message "안녕"], conversation_count := 1 }
     (by decide)).2.2⟩

/-- C3: the label simplification is the fixed table of the source: the 5
positive-group labels map to 긍정, the 2 neutral-group labels to 중립, the 4
negative-group labels to 부정, every label outside the 11 to 알 수 없음; on
the 11 fixed labels the result is always one of the three group labels. -/
theorem C3_simplify_fixed_table :
    (∀ l ∈ positive, simpleLabelOf l = "긍정") ∧
    (∀ l ∈ neutral, simpleLabelOf l = "중립") ∧
    (∀ l ∈ negative, simpleLabelOf l = "부정") ∧
    (∀ l : String, l ∉ elevenLabels → simpleLabelOf l = "알 수 없음") ∧
    positive.length = 5 ∧ neutral.length = 2 ∧ negative.length = 4 ∧
    (∀ l ∈ elevenLabels,
      simpleLabelOf l = "긍정" ∨ simpleLabelOf l = "중립" ∨ simpleLabelOf l = "부정") := by
  refine ⟨by decide, by decide, by decide, ?_, rfl, rfl, rfl, by decide⟩
  intro l hl
  simp only [elevenLabels, List.append_assoc, List.mem_append, not_or] at hl
  simp [simpleLabelOf, hl.1, hl.2.1, hl.2.2]

/-- Witness for C3: one representative of each group and one outside label. -/
theorem C3_simplify_fixed_table_witness :
    simpleLabelOf "고마운" = "긍정" ∧ simpleLabelOf "일상적인" = "중립" ∧
    simpleLabelOf "짜증남" = "부정" ∧ simpleLabelOf "모르는감정" = "알 수 없음" :=
  ⟨C3_simplify_fixed_table.1 "고마운" (by decide),
   C3_simplify_fixed_table.2.1 "일상적인" (by decide),
   C3_simplify_fixed_table.2.2.1 "짜증남" (by decide),
   C3_simplify_fixed_table.2.2.2.1 "모르는감정" (by decide)⟩

/-- C2: when the message count reaches `2 * MAX_CONVERSATION_TURNS = 20`, the
overflow manager keeps exactly the most recent `14 = int(20 * 0.7)` messages
(dropping the oldest prefix) and reports `length - 14` removed; below the
bound it leaves the list unchanged and reports zero removed. -/
theorem C2_overflow_trim (messages : List Message) :
    (MAX_CONVERSATION_TURNS * 2 ≤ messages.length →
      manage_conversation_overflow messages =
        (messages.drop (messages.length - 14), messages.length - 14) ∧
      (manage_conversation_overflow messages).1.length = 14) ∧
    (messages.length < MAX_CONVERSATION_TURNS * 2 →
      manage_conversation_overflow messages = (messages, 0)) := by
  constructor
  · intro h
    have h20 : 10 * 2 ≤ messages.length := h
    have heq : manage_conversation_overflow messages =
        (messages.drop (messages.length - 14), messages.length - 14) := by
      simp only [manage_conversation_overflow, MAX_CONVERSATION_TURNS]
      rw [if_pos h20]
    refine ⟨heq, ?_⟩
    rw [heq]
    simp only [List.length_drop]
    omega
  · intro h
    have h20 : ¬ 10 * 2 ≤ messages.length := Nat.not_le.mpr h
    simp only [manage_conversation_overflow, MAX_CONVERSATION_TURNS]
    rw [if_neg h20]

/-- Witness for C2 at the spec's example: 20 messages trim to the most recent
14 with 6 reported removed, and 19 messages are left untouched. -/
theorem C2_overflow_trim_witness :
    MAX_CONVERSATION_TURNS * 2 ≤ (List.replicate 20 (user_message "m")).length ∧
    manage_conversation_overflow (List.replicate 20 (user_message "m")) =
      (List.replicate 14 (user_message "m"), 6) ∧
    manage_conversation_overflow (List.replicate 19 (user_message "m")) =
      (List.replicate 19 (user_message "m"), 0) :=
  ⟨by decide,
   ((C2_overflow_trim (List.replicate 20 (user_message "m"))).1 (by decide)).1.trans (by decide),
   (C2_overflow_trim (List.replicate 19 (user_message "m"))).2 (by decide)⟩

/-- C5: `analyze_sentiment` passes text of at most 400 characters to the
classifier unchanged, and truncates longer text to exactly its first 400
characters before the external call. -/
theorem C5_truncation (text : String) (p : String → Option ClassifierOutput) :
    (text.length ≤ 400 →
      truncateForModel text = text ∧
      analyze_sentiment (some p) text = p text) ∧
    (400 < text.length →
      truncateForModel text = String.mk (text.data.take 400) ∧
      (truncateForModel text).length = 400 ∧
      analyze_sentiment (some p) text = p (String.mk (text.data.take 400))) := by
  constructor
  · intro h
    have hne : ¬ text.length > 400 := Nat.not_lt.mpr h
    constructor
    · simp only [truncateForModel, if_neg hne]
    · simp only [analyze_sentiment, truncateForModel, if_neg hne]
  · intro h
    have heq : truncateForModel text = String.mk (text.data.take 400) := by
      simp only [truncateForModel, if_pos h]
    refine ⟨heq, ?_, ?_⟩
    · have hdata : text.length = text.data.length := rfl
      have : (String.mk (text.data.take 400)).length = (text.data.take 400).length := rfl
      rw [heq, this, List.length_take]
      omega
    · simp only [analyze_sentiment, heq]

/-- Witness for C5 at the spec's example: a 450-character text is passed to
the classifier truncated to its first 400 characters. -/
theorem C5_truncation_witness :
    400 < (String.mk (List.replicate 450 'a')).length ∧
    truncateForModel (String.mk (List.replicate 450 'a')) =
      String.mk (List.replicate 400 'a') ∧
    (truncateForModel (String.mk (List.replicate 450 'a'))).length = 400 :=
  ⟨by decide,
   ((C5_truncation (String.mk (List.replicate 450 'a')) (fun _ => none)).2
       (by decide)).1.trans (by decide),
   ((C5_truncation (String.mk (List.replicate 450 'a')) (fun _ => none)).2
       (by decide)).2.1⟩

/-- Roles in this code base are only ever the strings `"user"` and
`"assistant"` (the data model's role enum). -/
abbrev WellFormedRoles (conversation : List Message) : Prop :=
  ∀ m ∈ conversation, m.role = "user" ∨ m.role = "assistant"

/-- C4: on any conversation whose roles are the two modelled roles, the
history converter returns exactly the ordered role-tagged image of every
message except the newest (last) one. Purity and non-mutation are immediate
in the embedding: the function is a pure function of its argument. -/
theorem C4_history_converter (conversation : List Message)
    (hroles : WellFormedRoles conversation) :
    convert_to_langchain_messages conversation =
      conversation.dropLast.map
        (fun m => if m.role = "user" then LCMessage.human m.content
                  else LCMessage.ai m.content) := by
  unfold convert_to_langchain_messages
  have hsub : ∀ m ∈ conversation.dropLast, m.role = "user" ∨ m.role = "assistant" :=
    fun m hm => hroles m (List.dropLast_subset conversation hm)
  revert hsub
  generalize conversation.dropLast = l
  intro hsub
  induction l with
  | nil => rfl
  | cons a t ih =>
    have ha := hsub a (List.mem_cons_self a t)
    have ht : ∀ m ∈ t, m.role = "user" ∨ m.role = "assistant" :=
      fun m hm => hsub m (List.mem_cons_of_mem a hm)
    simp only [List.filterMap_cons, List.map_cons]
    rcases ha with ha | ha
    · simp [roleTagged, ha, ih ht]
    · have hu : ¬ a.role = "user" := by rw [ha]; decide
      simp [roleTagged, ha, hu, ih ht]

/-- Witness for C4 at the spec's example conversation. -/
theorem C4_history_converter_witness :
    WellFormedRoles
      [user_message "a", Message.mk "assistant" "b" none none, user_message "c"] ∧
    convert_to_langchain_messages
      [user_message "a", Message.mk "assistant" "b" none none, user_message "c"] =
      [LCMessage.human "a", LCMessage.ai "b"] :=
  ⟨by decide,
   (C4_history_converter
     [user_message "a", Message.mk "assistant" "b" none none, user_message "c"]
     (by decide)).trans (by decide)⟩

/-- `String.append` is associative (needed to read prefixes off the display
strings). -/
theorem string_append_assoc (a b c : String) : a ++ b ++ c = a ++ (b ++ c) := by
  rcases a with ⟨la⟩; rcases b with ⟨lb⟩; rcases c with ⟨lc⟩
  show String.mk (la ++ lb ++ lc) = String.mk (la ++ (lb ++ lc))
  rw [List.append_assoc]

/-- Unfolding of `get_sentiment_display` on a present classifier result. -/
theorem get_sentiment_display_some (label : String) (score st nt : ℚ) :
    get_sentiment_display (some ⟨label, score⟩) st nt =
      if st ≤ score then
        simpleLabelOf label ++ " [ 원본: " ++ label ++ ", 신뢰도: 높음, " ++
          formatScorePct score ++ "% ]"
      else if nt ≤ score then
        simpleLabelOf label ++ " [ 원본: " ++ label ++ ", 신뢰도: 보통, " ++
          formatScorePct score ++ "% ]"
      else
        "불확실 [ 원본: " ++ label ++ ", 신뢰도: 낮음, " ++
          formatScorePct score ++ "% ]" := rfl

/-- C1: the display string uses the two fixed thresholds 0.70 and 0.55:
at or above 0.70 the tier is 높음 (high) and the simplified label is shown;
between 0.55 (inclusive) and 0.70 the tier is 보통 (medium) with the
simplified label; below 0.55 the string begins with 불확실 (uncertain)
instead of the simplified label, still embedding the original fine-grained
label, the 낮음 tier, and the score as a percentage with one decimal place. -/
theorem C1_sentiment_display (label : String) (score : ℚ)
    (_h0 : 0 ≤ score) (_h1 : score ≤ 1) :
    (strictDefault ≤ score →
      get_sentiment_display_default (some ⟨label, score⟩) =
        simpleLabelOf label ++ " [ 원본: " ++ label ++ ", 신뢰도: 높음, " ++
          formatScorePct score ++ "% ]") ∧
    (neutralDefault ≤ score → score < strictDefault →
      get_sentiment_display_default (some ⟨label, score⟩) =
        simpleLabelOf label ++ " [ 원본: " ++ label ++ ", 신뢰도: 보통, " ++
          formatScorePct score ++ "% ]") ∧
    (score < neutralDefault →
      get_sentiment_display_default (some ⟨label, score⟩) =
        "불확실 [ 원본: " ++ label ++ ", 신뢰도: 낮음, " ++
          formatScorePct score ++ "% ]" ∧
      ∃ rest, get_sentiment_display_default (some ⟨label, score⟩) = "불확실" ++ rest) := by
  unfold get_sentiment_display_default
  rw [get_sentiment_display_some]
  refine ⟨?_, ?_, ?_⟩
  · intro h
    rw [if_pos h]
  · intro hm hs
    rw [if_neg (not_le.mpr hs), if_pos hm]
  · intro h
    have hnlts : neutralDefault < strictDefault := by decide
    have hne1 : ¬ strictDefault ≤ score := not_le.mpr (lt_trans h hnlts)
    have hne2 : ¬ neutralDefault ≤ score := not_le.mpr h
    rw [if_neg hne1, if_neg hne2]
    refine ⟨rfl,
      ⟨" [ 원본: " ++ label ++ ", 신뢰도: 낮음, " ++ formatScorePct score ++ "% ]", ?_⟩⟩
    have hsplit : ("불확실 [ 원본: " : String) = "불확실" ++ " [ 원본: " := by decide
    simp only [hsplit, string_append_assoc]

/-- Witness for C1 at the spec's example: score 0.40 yields an uncertain
display carrying the original label and "40.0%". -/
theorem C1_sentiment_display_witness :
    (0:ℚ) ≤ Rat.divInt 2 5 ∧ Rat.divInt 2 5 ≤ (1:ℚ) ∧
    Rat.divInt 2 5 < neutralDefault ∧
    get_sentiment_display_default (some ⟨"고마운", Rat.divInt 2 5⟩) =
      "불확실 [ 원본: 고마운, 신뢰도: 낮음, 40.0% ]" :=
  ⟨by decide, by decide, by decide,
   (((C1_sentiment_display "고마운" (Rat.divInt 2 5) (by decide) (by decide)).2.2
       (by decide)).1).trans (by decide)⟩

/-- C6: whenever the chat-model call raises, `generate_response` catches it
and returns an error status with the fixed user-visible error message, no
sentiment, and the raised message in the `error` field; the turn handler then
still appends the user message and an assistant message whose content is the
error notice, leaving the turn counter unchanged. -/
theorem C6_generation_failure (invoke : List LCMessage → Except String String)
    (pipeline : Option (String → Option ClassifierOutput))
    (user_input : String) (s : SessionState) (e : String)
    (hfail : invoke (turn_prompt s user_input) = Except.error e) :
    (generate_response invoke pipeline user_input
        ((manage_conversation_overflow s.messages).1 ++ [user_message user_input])).status =
      "error" ∧
    (generate_response invoke pipeline user_input
        ((manage_conversation_overflow s.messages).1 ++ [user_message user_input])).response =
      "응답 생성 중 오류가 발생했습니다." ∧
    (generate_response invoke pipeline user_input
        ((manage_conversation_overflow s.messages).1 ++
          [user_message user_input])).sentiment_info.has_sentiment = false ∧
    (generate_response invoke pipeline user_input
        ((manage_conversation_overflow s.messages).1 ++ [user_message user_input])).error =
      some e ∧
    (handle_user_input invoke pipeline user_input s).messages =
      (manage_conversation_overflow s.messages).1 ++
        [user_message user_input,
         { role := "assistant", content := "--- 오류: " ++ e,
           sentiment := none, sentiment_display := none }] ∧
    (handle_user_input invoke pipeline user_input s).conversation_count =
      s.conversation_count := by
  have hgen : generate_response invoke pipeline user_input
      ((manage_conversation_overflow s.messages).1 ++ [user_message user_input]) =
      { status := "error", error := some e
        response := "응답 생성 중 오류가 발생했습니다."
        sentiment_info :=
          { sentiment := none, sentiment_display := none, has_sentiment := false } } := by
    have hmsgs : format_messages
        (convert_to_langchain_messages
          ((manage_conversation_overflow s.messages).1 ++ [user_message user_input]))
        user_input = turn_prompt s user_input := rfl
    simp only [generate_response, hmsgs, hfail]
  refine ⟨by rw [hgen], by rw [hgen], by rw [hgen], by rw [hgen], ?_, ?_⟩
  · simp only [handle_user_input, hgen]
    simp [assistant_error_message, List.append_assoc]
  · simp only [handle_user_input, hgen]
    simp

/-- Witness for C6 with a chat model that always raises. -/
theorem C6_generation_failure_witness :
    (fun _ : List LCMessage => (Except.error "연결 오류" : Except String String))
        (turn_prompt initial_session "안녕") = Except.error "연결 오류" ∧
    (handle_user_input (fun _ => Except.error "연결 오류") none "안녕"
        initial_session).messages =
      [user_message "안녕",
       { role := "assistant", content := "--- 오류: 연결 오류",
         sentiment := none, sentiment_display := none }] :=
  ⟨rfl,
   ((C6_generation_failure (fun _ => Except.error "연결 오류") none "안녕"
       initial_session "연결 오류" rfl).2.2.2.2.1).trans (by decide)⟩

/-- C7: when sentiment classification fails — the pipeline never loaded, or
the classifier call raised — `process_message_sentiment` returns the
no-sentiment result (`has_sentiment = false`, no sentiment, no display), and
on the success path of a turn the assistant reply is still appended, carrying
no sentiment annotation, with the turn counter advanced. -/
theorem C7_classification_failure
    (p : String → Option ClassifierOutput) (content : String)
    (invoke : List LCMessage → Except String String)
    (user_input reply : String) (s : SessionState) :
    (process_message_sentiment none content =
      { sentiment := none, sentiment_display := none, has_sentiment := false }) ∧
    (p (truncateForModel content) = none →
      process_message_sentiment (some p) content =
        { sentiment := none, sentiment_display := none, has_sentiment := false }) ∧
    (invoke (turn_prompt s user_input) = Except.ok reply →
      (handle_user_input invoke none user_input s).messages =
        (manage_conversation_overflow s.messages).1 ++
          [user_message user_input,
           { role := "assistant", content := reply,
             sentiment := none, sentiment_display := none }] ∧
      (handle_user_input invoke none user_input s).conversation_count =
        s.conversation_count + 1) := by
  refine ⟨rfl, ?_, ?_⟩
  · intro hp
    simp [process_message_sentiment, analyze_sentiment, hp]
  · intro hok
    have hgen : generate_response invoke none user_input
        ((manage_conversation_overflow s.messages).1 ++ [user_message user_input]) =
        { status := "success", response := reply
          sentiment_info :=
            { sentiment := none, sentiment_display := none, has_sentiment := false }
          error := none } := by
      have hmsgs : format_messages
          (convert_to_langchain_messages
            ((manage_conversation_overflow s.messages).1 ++ [user_message user_input]))
          user_input = turn_prompt s user_input := rfl
      simp only [generate_response, hmsgs, hok]
      rfl
    constructor
    · simp only [handle_user_input, hgen]
      simp [assistant_success_message, List.append_assoc]
    · simp only [handle_user_input, hgen]
      simp

/-- Witness for C7: unavailable pipeline, classifier that raises, and a turn
whose reply is appended without annotation. -/
theorem C7_classification_failure_witness :
    ((fun _ : String => (none : Option ClassifierOutput))
        (truncateForModel "테스트") = none) ∧
    process_message_sentiment (some (fun _ => none)) "테스트" =
      { sentiment := none, sentiment_display := none, has_sentiment := false } ∧
    ((fun _ : List LCMessage => (Except.ok "네" : Except String String))
        (turn_prompt initial_session "안녕") = Except.ok "네") ∧
    (handle_user_input (fun _ => Except.ok "네") none "안녕" initial_session).messages =
      [user_message "안녕",
       { role := "assistant", content := "네",
         sentiment := none, sentiment_display := none }] :=
  ⟨rfl,
   (C7_classification_failure (fun _ => none) "테스트" (fun _ => Except.ok "네")
       "안녕" "네" initial_session).2.1 rfl,
   rfl,
   (((C7_classification_failure (fun _ => none) "테스트" (fun _ => Except.ok "네")
       "안녕" "네" initial_session).2.2 rfl).1).trans (by decide)⟩

/-- The retained length after the overflow manager runs: 14 once the list has
reached 20 entries, otherwise unchanged. -/
theorem manage_overflow_length (l : List Message) :
    (manage_conversation_overflow l).1.length =
      if 10 * 2 ≤ l.length then 14 else l.length := by
  by_cases h : 10 * 2 ≤ l.length
  · simp only [manage_conversation_overflow, MAX_CONVERSATION_TURNS]
    rw [if_pos h, if_pos h]
    simp only [List.length_drop]
    omega
  · simp only [manage_conversation_overflow, MAX_CONVERSATION_TURNS]
    rw [if_neg h, if_neg h]

/-- A completed user turn always adds exactly two messages (the user message
and one assistant message, on success and error alike) to the trimmed
conversation. -/
theorem handle_user_input_length (invoke : List LCMessage → Except String String)
    (pipeline : Option (String → Option ClassifierOutput))
    (input : String) (s : SessionState) :
    (handle_user_input invoke pipeline input s).messages.length =
      (manage_conversation_overflow s.messages).1.length + 2 := by
  simp only [handle_user_input]
  split <;> simp [List.length_append]

/-- Each session step preserves the parity-and-bound invariant on the message
count. -/
theorem apply_step_preserves (s : SessionState) (st : SessionStep)
    (h : s.messages.length % 2 = 0 ∧ s.messages.length ≤ 20) :
    (apply_step s st).messages.length % 2 = 0 ∧
    (apply_step s st).messages.length ≤ 20 := by
  cases st with
  | reset => exact ⟨rfl, by simp [apply_step, reset_chat]⟩
  | userTurn invoke pipeline input =>
    have hlen := handle_user_input_length invoke pipeline input s
    have htr := manage_overflow_length s.messages
    simp only [apply_step]
    rw [hlen, htr]
    by_cases h20 : 10 * 2 ≤ s.messages.length
    · rw [if_pos h20]
      omega
    · rw [if_neg h20]
      omega

/-- C10: starting from the empty session and stepping only by the user-turn
handler (which trims before appending the user message and then appends
exactly one assistant message, on success or error alike) or by reset, the
message count after every completed step is even and never exceeds
`2 * MAX_CONVERSATION_TURNS = 20`. -/
theorem C10_session_invariant (steps : List SessionStep) :
    Even (run_session steps).messages.length ∧
    (run_session steps).messages.length ≤ 2 * MAX_CONVERSATION_TURNS := by
  have key : ∀ (l : List SessionStep) (s : SessionState),
      s.messages.length % 2 = 0 ∧ s.messages.length ≤ 20 →
      (l.foldl apply_step s).messages.length % 2 = 0 ∧
        (l.foldl apply_step s).messages.length ≤ 20 := by
    intro l
    induction l with
    | nil => intro s hs; simpa using hs
    | cons a t ih =>
      intro s hs
      simp only [List.foldl_cons]
      exact ih _ (apply_step_preserves s a hs)
  have h := key steps initial_session (by simp [initial_session])
  refine ⟨Nat.even_iff.mpr h.1, ?_⟩
  have h2 := h.2
  simp only [run_session, MAX_CONVERSATION_TURNS] at h2 ⊢
  omega

end Midterm
